import Mathlib

/-!
Shallow embedding of `src/event_extraction.py`: a three-stage calendar
pipeline (extraction, detail parsing, confirmation), each stage a single
structured-output call to an external completion client, sequenced by an
orchestrator with a confidence threshold.

Modelling conventions:
- Python floats are modelled as exact rationals (`Rat`); the only float
  operations in the source are order comparisons against the literal 0.7.
- The completion client is a parameter: for each requested schema it maps
  a model identifier and message list to either a service error or the
  parsed structured payload. As in the underlying SDK, the parsed payload
  of a successful call is optional (may be `none`).
- Each function returns, alongside its result, the list of client calls
  it issued, so that call-count properties can be stated.
- A Python `AttributeError` raised by reading a field of `None` is
  modelled as a distinct error constructor.
- `datetime.now().strftime(...)` is nondeterministic input, passed as the
  `today : String` parameter.
-/

namespace EventExtractionPy

/-- A role-tagged chat message sent to the completion client. -/
structure Message where
  role : String
  content : String
  deriving Repr, DecidableEq

/-- The `EventExtraction` pydantic model (source lines 20-23). -/
structure EventExtraction where
  description : String
  is_calendar_event : Bool
  confidence_score : Rat
  deriving Repr, DecidableEq

/-- The `EventDetails` pydantic model (source lines 25-29). -/
structure EventDetails where
  name : String
  date : String
  duration_minutes : Int
  participants : List String
  deriving Repr, DecidableEq

/-- The `EventConfirmation` pydantic model (source lines 31-33):
`confirmation_message` is required, `calendar_link` is optional with
default `None`. -/
structure EventConfirmation where
  confirmation_message : String
  calendar_link : Option String := none
  deriving Repr, DecidableEq

/-- A raw structured response for the `EventConfirmation` schema before
pydantic validation: each field is present or omitted. -/
structure RawConfirmation where
  confirmation_message : Option String
  calendar_link : Option String
  deriving Repr, DecidableEq

/-- Validation of a raw payload against the `EventConfirmation` model
(source lines 31-33): `confirmation_message` is required (validation
fails when it is omitted); `calendar_link` defaults to `none` when
omitted. -/
def EventConfirmation.ofRaw (raw : RawConfirmation) : Option EventConfirmation :=
  match raw.confirmation_message with
  | none => none
  | some m => some { confirmation_message := m, calendar_link := raw.calendar_link }

/-- A failure of the completion client (transport error, auth/quota
rejection, or unparseable structured response). -/
structure ServiceError where
  msg : String
  deriving Repr, DecidableEq

/-- Errors that can escape the pipeline: a propagated client failure, or
a Python `AttributeError` from reading the named attribute of `None`. -/
inductive PipelineError where
  | service (e : ServiceError)
  | attributeError (attr : String)
  deriving Repr, DecidableEq

/-- One call issued to the completion client, tagged by the requested
response schema and recording the model identifier and messages sent. -/
inductive ClientCall where
  | extraction (model : String) (messages : List Message)
  | details (model : String) (messages : List Message)
  | confirmation (model : String) (messages : List Message)
  deriving Repr, DecidableEq

/-- Number of detail-parsing calls in a call log. -/
def countDetails (log : List ClientCall) : Nat :=
  (log.filter fun c => match c with | .details _ _ => true | _ => false).length

/-- Number of confirmation calls in a call log. -/
def countConfirmation (log : List ClientCall) : Nat :=
  (log.filter fun c => match c with | .confirmation _ _ => true | _ => false).length

/-- Number of extraction calls in a call log. -/
def countExtraction (log : List ClientCall) : Nat :=
  (log.filter fun c => match c with | .extraction _ _ => true | _ => false).length

/-- The external completion client (`client.beta.chat.completions.parse`),
one function per requested response schema. Each successful call yields
the parsed payload, which the SDK types as optional. -/
structure CompletionClient where
  parseExtraction : String → List Message → Except ServiceError (Option EventExtraction)
  parseDetails : String → List Message → Except ServiceError (Option EventDetails)
  parseConfirmation : String → List Message → Except ServiceError (Option EventConfirmation)

/-- The model identifier constant (source line 17). -/
def model : String := "gpt-4o-mini-2024-07-18"

/-- The credential check at module load (source lines 13-15):
`api_key = os.getenv("OPENAI_API_KEY"); if not api_key: raise ValueError(...)`.
A Python string is falsy exactly when it is empty, so both an unset
variable and an empty value raise. -/
def checkApiKey (v : Option String) : Except String String :=
  match v with
  | none =>
    .error "Please set OPENAI_API_KEY in your environment (check 1Password or Codespaces Secrets)."
  | some k =>
    if k = "" then
      .error "Please set OPENAI_API_KEY in your environment (check 1Password or Codespaces Secrets)."
    else
      .ok k

/-- Module startup (source lines 13-16): read the credential from the
environment and, only on success, construct the client
(`client = OpenAI(api_key=api_key)`). On failure the raised error
prevents any client from existing, hence any client call. -/
def startup (env : String → Option String) (mkClient : String → CompletionClient) :
    Except String CompletionClient :=
  match checkApiKey (env "OPENAI_API_KEY") with
  | .error e => .error e
  | .ok k => .ok (mkClient k)

/-- The messages built by `extract_event_info` (source lines 40-43). -/
def extractionMessages (today user_input : String) : List Message :=
  [{ role := "system", content := "Today is " ++ today ++ ". Is this a calendar event?" },
   { role := "user", content := user_input }]

/-- The messages built by `parse_event_details` (source lines 52-55). -/
def detailsMessages (today description : String) : List Message :=
  [{ role := "system", content := "Today is " ++ today ++ ". Extract event details." },
   { role := "user", content := description }]

/-- Python `repr` of a string (single-quoted). -/
def pyRepr (s : String) : String := "\x27" ++ s ++ "\x27"

/-- Python `repr` of a list of strings. -/
def pyReprList (xs : List String) : String :=
  "[" ++ String.intercalate ", " (xs.map pyRepr) ++ "]"

/-- `str(event_details.model_dump())` (source line 65): the Python dict
representation of the record. -/
def EventDetails.model_dump_str (d : EventDetails) : String :=
  "\x7b" ++ pyRepr "name" ++ ": " ++ pyRepr d.name ++ ", " ++
    pyRepr "date" ++ ": " ++ pyRepr d.date ++ ", " ++
    pyRepr "duration_minutes" ++ ": " ++ toString d.duration_minutes ++ ", " ++
    pyRepr "participants" ++ ": " ++ pyReprList d.participants ++ "\x7d"

/-- The messages built by `generate_confirmation` (source lines 63-66). -/
def confirmationMessages (d : EventDetails) : List Message :=
  [{ role := "system", content := "Generate a confirmation. Sign off with \x27Susie\x27." },
   { role := "user", content := d.model_dump_str }]

/-- `extract_event_info` (source lines 36-46): one extraction-schema call;
the result is exactly the client's parsed payload, with no validation or
clamping. -/
def extract_event_info (client : CompletionClient) (today user_input : String) :
    List ClientCall × Except ServiceError (Option EventExtraction) :=
  let messages := extractionMessages today user_input
  ([.extraction model messages], client.parseExtraction model messages)

/-- `parse_event_details` (source lines 48-58): one details-schema call;
the result is exactly the client's parsed payload. -/
def parse_event_details (client : CompletionClient) (today description : String) :
    List ClientCall × Except ServiceError (Option EventDetails) :=
  let messages := detailsMessages today description
  ([.details model messages], client.parseDetails model messages)

/-- `generate_confirmation` (source lines 60-69). At runtime its argument
is the parsed payload of the previous stage and may be `None`, in which
case `event_details.model_dump()` raises an `AttributeError` before any
client call is made. Otherwise: one confirmation-schema call, returning
exactly the client's parsed payload. -/
def generate_confirmation (client : CompletionClient) (event_details : Option EventDetails) :
    List ClientCall × Except PipelineError (Option EventConfirmation) :=
  match event_details with
  | none => ([], .error (.attributeError "model_dump"))
  | some d =>
    let messages := confirmationMessages d
    match client.parseConfirmation model messages with
    | .error e => ([.confirmation model messages], .error (.service e))
    | .ok c => ([.confirmation model messages], .ok c)

/-- The confidence threshold literal `0.7` (source line 75). -/
def confidenceThreshold : Rat := 7 / 10

/-- `process_calendar_request` (source lines 72-79): run extraction; if
the parsed payload is `None`, reading `extraction.is_calendar_event`
raises an `AttributeError`; if the input is not a calendar event or the
confidence is below 0.7, return `None` normally; otherwise run detail
parsing on the extraction's description and return the confirmation
stage's result. Client failures propagate; no retry. -/
def process_calendar_request (client : CompletionClient) (today user_input : String) :
    List ClientCall × Except PipelineError (Option EventConfirmation) :=
  let ext := extract_event_info client today user_input
  match ext.2 with
  | .error e => (ext.1, .error (.service e))
  | .ok none => (ext.1, .error (.attributeError "is_calendar_event"))
  | .ok (some extraction) =>
    if extraction.is_calendar_event = false ∨ extraction.confidence_score < confidenceThreshold then
      (ext.1, .ok none)
    else
      let det := parse_event_details client today extraction.description
      match det.2 with
      | .error e => (ext.1 ++ det.1, .error (.service e))
      | .ok details =>
        let conf := generate_confirmation client details
        (ext.1 ++ det.1 ++ conf.1, conf.2)

/-- A test double for the completion client returning fixed responses,
independent of the messages. -/
def stubClient (ext : Except ServiceError (Option EventExtraction))
    (det : Except ServiceError (Option EventDetails))
    (conf : Except ServiceError (Option EventConfirmation)) : CompletionClient :=
  { parseExtraction := fun _ _ => ext,
    parseDetails := fun _ _ => det,
    parseConfirmation := fun _ _ => conf }

/-- C1: for every user input, if the extraction stage's parsed result has
`is_calendar_event = false` or `confidence_score < 0.7`, the orchestrator
returns the absent result `none` as a normal (`.ok`, non-error) outcome. -/
theorem c1_low_confidence_returns_absent
    (client : CompletionClient) (today user_input : String) (e : EventExtraction)
    (hext : client.parseExtraction model (extractionMessages today user_input) = .ok (some e))
    (h : e.is_calendar_event = false ∨ e.confidence_score < confidenceThreshold) :
    (process_calendar_request client today user_input).2 = .ok none := by
  unfold process_calendar_request extract_event_info
  simp only []
  rw [hext]
  simp [h]

/-- Witness for C1 at a concrete stubbed client. -/
theorem c1_low_confidence_returns_absent_witness :
    (process_calendar_request
      (stubClient
        (.ok (some { description := "d", is_calendar_event := false, confidence_score := 9/10 }))
        (.ok none) (.ok none))
      "Monday" "hello").2 = .ok none :=
  c1_low_confidence_returns_absent _ "Monday" "hello"
    { description := "d", is_calendar_event := false, confidence_score := 9/10 }
    rfl (Or.inl rfl)

/-- C2: when the extraction result has `is_calendar_event = true` and
`confidence_score ≥ 0.7`, the orchestrator issues exactly one
detail-parsing call carrying the extraction's `description`, then exactly
one confirmation call carrying the resulting details, and returns the
confirmation stage's parsed result unchanged. -/
theorem c2_success_path_calls_and_result
    (client : CompletionClient) (today user_input : String)
    (e : EventExtraction) (d : EventDetails) (c : Option EventConfirmation)
    (hext : client.parseExtraction model (extractionMessages today user_input) = .ok (some e))
    (hcal : e.is_calendar_event = true)
    (hscore : confidenceThreshold ≤ e.confidence_score)
    (hdet : client.parseDetails model (detailsMessages today e.description) = .ok (some d))
    (hconf : client.parseConfirmation model (confirmationMessages d) = .ok c) :
    (process_calendar_request client today user_input).1 =
      [ClientCall.extraction model (extractionMessages today user_input),
       ClientCall.details model (detailsMessages today e.description),
       ClientCall.confirmation model (confirmationMessages d)] ∧
    countDetails (process_calendar_request client today user_input).1 = 1 ∧
    countConfirmation (process_calendar_request client today user_input).1 = 1 ∧
    (process_calendar_request client today user_input).2 = .ok c := by
  unfold process_calendar_request extract_event_info parse_event_details generate_confirmation
  simp [hext, hcal, not_lt.mpr hscore, hdet, hconf, countDetails, countConfirmation]

/-- Witness for C2 at a concrete stubbed client. -/
theorem c2_success_path_calls_and_result_witness :
    (process_calendar_request
      (stubClient
        (.ok (some { description := "team meeting", is_calendar_event := true,
                     confidence_score := 95/100 }))
        (.ok (some { name := "Team Meeting", date := "2024-10-15T14:00:00",
                     duration_minutes := 60, participants := ["Alice", "Bob"] }))
        (.ok (some { confirmation_message := "See you there. - Susie" })))
      "Monday" "meet Tuesday").2 =
      .ok (some { confirmation_message := "See you there. - Susie" }) :=
  (c2_success_path_calls_and_result _ "Monday" "meet Tuesday"
    { description := "team meeting", is_calendar_event := true, confidence_score := 95/100 }
    { name := "Team Meeting", date := "2024-10-15T14:00:00",
      duration_minutes := 60, participants := ["Alice", "Bob"] }
    (some { confirmation_message := "See you there. - Susie" })
    rfl rfl (by norm_num [confidenceThreshold]) rfl rfl).2.2.2

/-- C3: a client failure at any stage propagates as the same
`ServiceError` to the orchestrator's caller, and no subsequent stage is
invoked after the failing one: (i) extraction failure — no detail or
confirmation call; (ii) detail-parsing failure on the success path — no
confirmation call; (iii) confirmation failure — error still propagated
unchanged. -/
theorem c3_failure_propagates_no_later_stage
    (client : CompletionClient) (today user_input : String) (err : ServiceError) :
    (client.parseExtraction model (extractionMessages today user_input) = .error err →
      (process_calendar_request client today user_input).2 = .error (.service err) ∧
      countDetails (process_calendar_request client today user_input).1 = 0 ∧
      countConfirmation (process_calendar_request client today user_input).1 = 0) ∧
    (∀ e : EventExtraction,
      client.parseExtraction model (extractionMessages today user_input) = .ok (some e) →
      e.is_calendar_event = true →
      confidenceThreshold ≤ e.confidence_score →
      client.parseDetails model (detailsMessages today e.description) = .error err →
      (process_calendar_request client today user_input).2 = .error (.service err) ∧
      countConfirmation (process_calendar_request client today user_input).1 = 0) ∧
    (∀ (e : EventExtraction) (d : EventDetails),
      client.parseExtraction model (extractionMessages today user_input) = .ok (some e) →
      e.is_calendar_event = true →
      confidenceThreshold ≤ e.confidence_score →
      client.parseDetails model (detailsMessages today e.description) = .ok (some d) →
      client.parseConfirmation model (confirmationMessages d) = .error err →
      (process_calendar_request client today user_input).2 = .error (.service err)) := by
  refine ⟨fun hext => ?_, fun e hext hcal hscore hdet => ?_, fun e d hext hcal hscore hdet hconf => ?_⟩
  · unfold process_calendar_request extract_event_info
    simp [hext, countDetails, countConfirmation]
  · unfold process_calendar_request extract_event_info parse_event_details
    simp [hext, hcal, not_lt.mpr hscore, hdet, countConfirmation]
  · unfold process_calendar_request extract_event_info parse_event_details generate_confirmation
    simp [hext, hcal, not_lt.mpr hscore, hdet, hconf]

/-- Witness for C3: extraction failure at a concrete stubbed client. -/
theorem c3_failure_propagates_no_later_stage_witness :
    (process_calendar_request (stubClient (.error { msg := "boom" }) (.ok none) (.ok none))
      "Monday" "hello").2 = .error (.service { msg := "boom" }) :=
  ((c3_failure_propagates_no_later_stage
    (stubClient (.error { msg := "boom" }) (.ok none) (.ok none))
    "Monday" "hello" { msg := "boom" }).1 rfl).1

/-- C4: `confidence_score` exactly `0.7` (with `is_calendar_event = true`)
is sufficient: the comparison on source line 75 is strict, so the
orchestrator proceeds — it issues the detail-parsing call, and on the full
success path issues the confirmation call and returns its parsed record
rather than the absent outcome. -/
theorem c4_threshold_inclusive
    (client : CompletionClient) (today user_input : String) (e : EventExtraction)
    (hext : client.parseExtraction model (extractionMessages today user_input) = .ok (some e))
    (hcal : e.is_calendar_event = true)
    (hscore : e.confidence_score = confidenceThreshold) :
    countDetails (process_calendar_request client today user_input).1 = 1 ∧
    (∀ (d : EventDetails) (c : EventConfirmation),
      client.parseDetails model (detailsMessages today e.description) = .ok (some d) →
      client.parseConfirmation model (confirmationMessages d) = .ok (some c) →
      (process_calendar_request client today user_input).2 = .ok (some c)) := by
  have hlt : ¬ e.confidence_score < confidenceThreshold := by rw [hscore]; exact lt_irrefl _
  constructor
  · cases hdet : client.parseDetails model (detailsMessages today e.description) with
    | error err =>
      unfold process_calendar_request extract_event_info parse_event_details
      simp [hext, hcal, hlt, hdet, countDetails]
    | ok details =>
      cases details with
      | none =>
        unfold process_calendar_request extract_event_info parse_event_details
          generate_confirmation
        simp [hext, hcal, hlt, hdet, countDetails]
      | some d =>
        cases hconf : client.parseConfirmation model (confirmationMessages d) with
        | error err =>
          unfold process_calendar_request extract_event_info parse_event_details
            generate_confirmation
          simp [hext, hcal, hlt, hdet, hconf, countDetails]
        | ok c =>
          unfold process_calendar_request extract_event_info parse_event_details
            generate_confirmation
          simp [hext, hcal, hlt, hdet, hconf, countDetails]
  · intro d c hdet hconf
    exact (c2_success_path_calls_and_result client today user_input e d (some c)
      hext hcal (le_of_eq hscore.symm) hdet hconf).2.2.2

/-- Witness for C4 at a concrete stubbed client with score exactly 0.7. -/
theorem c4_threshold_inclusive_witness :
    countDetails (process_calendar_request
      (stubClient
        (.ok (some { description := "d", is_calendar_event := true, confidence_score := 7/10 }))
        (.ok none) (.ok none))
      "Monday" "hello").1 = 1 :=
  (c4_threshold_inclusive _ "Monday" "hello"
    { description := "d", is_calendar_event := true, confidence_score := 7/10 }
    rfl rfl rfl).1

/-- C5: when the extraction result has `is_calendar_event = false`, the
orchestrator returns the absent result and issues no detail-parsing and
no confirmation call. -/
theorem c5_not_event_no_later_calls
    (client : CompletionClient) (today user_input : String) (e : EventExtraction)
    (hext : client.parseExtraction model (extractionMessages today user_input) = .ok (some e))
    (hcal : e.is_calendar_event = false) :
    (process_calendar_request client today user_input).2 = .ok none ∧
    countDetails (process_calendar_request client today user_input).1 = 0 ∧
    countConfirmation (process_calendar_request client today user_input).1 = 0 := by
  unfold process_calendar_request extract_event_info
  simp only []
  rw [hext]
  simp [hcal, countDetails, countConfirmation]

/-- Witness for C5 at a concrete stubbed client. -/
theorem c5_not_event_no_later_calls_witness :
    (process_calendar_request
      (stubClient
        (.ok (some { description := "w", is_calendar_event := false, confidence_score := 99/100 }))
        (.ok none) (.ok none))
      "Monday" "weather?").2 = .ok none :=
  (c5_not_event_no_later_calls _ "Monday" "weather?"
    { description := "w", is_calendar_event := false, confidence_score := 99/100 }
    rfl rfl).1

/-- C6: when the credential environment variable is absent, startup fails
with the configuration-error diagnostic and yields no client, so no
completion-client call (hence no pipeline stage) can ever run. -/
theorem c6_missing_credential_fails_fast
    (env : String → Option String) (mkClient : String → CompletionClient)
    (h : env "OPENAI_API_KEY" = none) :
    startup env mkClient =
      .error "Please set OPENAI_API_KEY in your environment (check 1Password or Codespaces Secrets)." ∧
    ∀ client : CompletionClient, startup env mkClient ≠ .ok client := by
  unfold startup checkApiKey
  rw [h]
  simp

/-- Witness for C6 at a concrete empty environment. -/
theorem c6_missing_credential_fails_fast_witness :
    startup (fun _ => none) (fun _ => stubClient (.ok none) (.ok none) (.ok none)) =
      .error "Please set OPENAI_API_KEY in your environment (check 1Password or Codespaces Secrets)." :=
  (c6_missing_credential_fails_fast (fun _ => none)
    (fun _ => stubClient (.ok none) (.ok none) (.ok none)) rfl).1

/-- C7: the extraction stage returns exactly the structured value the
completion client produced, with no local validation or clamping of
`confidence_score`; in particular an out-of-range score (here 1.5) is
passed through unchanged. -/
theorem c7_extraction_passthrough
    (client : CompletionClient) (today user_input : String) :
    (extract_event_info client today user_input).2 =
      client.parseExtraction model (extractionMessages today user_input) ∧
    (extract_event_info
      (stubClient
        (.ok (some { description := "d", is_calendar_event := true, confidence_score := 3/2 }))
        (.ok none) (.ok none))
      today user_input).2 =
      .ok (some { description := "d", is_calendar_event := true, confidence_score := 3/2 }) :=
  ⟨rfl, rfl⟩

/-- C8: in the confirmation schema, `calendar_link` defaults to absent
whenever the raw structured response omits it, while
`confirmation_message` is required: validation succeeds exactly when it
is present, and preserves it. -/
theorem c8_calendar_link_defaults_absent (raw : RawConfirmation) :
    ((EventConfirmation.ofRaw raw).isSome ↔ raw.confirmation_message.isSome) ∧
    (∀ c : EventConfirmation, EventConfirmation.ofRaw raw = some c →
      (raw.calendar_link = none → c.calendar_link = none) ∧
      raw.confirmation_message = some c.confirmation_message) := by
  cases raw with
  | mk m l =>
    cases m with
    | none => simp [EventConfirmation.ofRaw]
    | some m =>
      refine ⟨by simp [EventConfirmation.ofRaw], fun c hc => ?_⟩
      have hceq : c = { confirmation_message := m, calendar_link := l } := by
        simpa [EventConfirmation.ofRaw] using hc.symm
      subst hceq
      exact ⟨fun h => h, rfl⟩

/-- Witness for C8 at a concrete raw payload omitting the link. -/
theorem c8_calendar_link_defaults_absent_witness :
    ({ confirmation_message := "ok", calendar_link := none } : EventConfirmation).calendar_link =
      none :=
  ((c8_calendar_link_defaults_absent
      { confirmation_message := some "ok", calendar_link := none }).2
    { confirmation_message := "ok", calendar_link := none } rfl).1 rfl

/-- C9: if the extraction call succeeds but its parsed payload is absent,
the stage returns that absent payload and the orchestrator fails with an
attribute-access error on `is_calendar_event`, not with the normal absent
"not an event" outcome. -/
theorem c9_none_payload_attribute_error
    (client : CompletionClient) (today user_input : String)
    (h : client.parseExtraction model (extractionMessages today user_input) = .ok none) :
    (extract_event_info client today user_input).2 = .ok none ∧
    (process_calendar_request client today user_input).2 =
      .error (.attributeError "is_calendar_event") ∧
    (process_calendar_request client today user_input).2 ≠ .ok none := by
  unfold process_calendar_request extract_event_info
  simp [h]

/-- Witness for C9 at a concrete stubbed client with an absent payload. -/
theorem c9_none_payload_attribute_error_witness :
    (process_calendar_request (stubClient (.ok none) (.ok none) (.ok none)) "Monday" "hi").2 =
      .error (.attributeError "is_calendar_event") :=
  (c9_none_payload_attribute_error (stubClient (.ok none) (.ok none) (.ok none))
    "Monday" "hi" rfl).2.1

/-- C10: an empty credential string is treated the same as an absent
credential — both raise the configuration error — and the startup check
succeeds exactly when the variable holds a non-empty string. -/
theorem c10_empty_credential_like_absent (v : Option String) :
    checkApiKey (some "") = checkApiKey none ∧
    ((∃ k, checkApiKey v = .ok k) ↔ ∃ s, v = some s ∧ s ≠ "") := by
  constructor
  · simp [checkApiKey]
  · cases v with
    | none => simp [checkApiKey]
    | some s =>
      by_cases hs : s = ""
      · subst hs; simp [checkApiKey]
      · simp [checkApiKey, hs]

/-- Witness for C10 at a concrete non-empty credential. -/
theorem c10_empty_credential_like_absent_witness :
    ∃ k, checkApiKey (some "sk-test") = .ok k :=
  (c10_empty_credential_like_absent (some "sk-test")).2.mpr ⟨"sk-test", rfl, by decide⟩

end EventExtractionPy
